import Mathlib

/-!
Verification of the geocoder-osm-google core (`src/geocoding.ts`).

A shallow embedding of the `Geocoder` class and its two provider adapters
(Google Maps, Nominatim), faithful to the TypeScript source:

* JavaScript values that may be `undefined` are modelled with `Option`;
  the JS truthiness test `x || y` on string-or-undefined values is `jsOr`.
* A thrown JS exception is `Except.error msg` (carrying the `Error` message);
  `try`/`catch` blocks are explicit `match`es on the `Except`.
* Network I/O (the `fetch` calls of the Nominatim adapter and the
  `promisifyGeocode` round-trip of the Google adapter) is modelled by
  passing the environment's responses in as data (`FetchOutcome`,
  `GoogleResponse`); the calls actually issued are reported in a call log
  so that "no request was made" is a provable statement.
* JavaScript numbers are modelled as `Rat`; the platform built-in
  `parseFloat` is an abstract parameter `pf : String → Rat` of the
  Nominatim adapter (its numeric semantics are irrelevant to every claim;
  `parseFloat(undefined)` coerces the argument to the string "undefined",
  which `pfOpt` reproduces).
-/

/-- JS `a || b` where `a` is a string-or-undefined value and `b` a string:
`undefined` and the empty string are the falsy strings. -/
def jsOr (a : Option String) (b : String) : String :=
  match a with
  | none => b
  | some s => if s = "" then b else s

/-- JS `String.prototype.endsWith`, computed on the character list. -/
def jsEndsWith (s suffix : String) : Bool :=
  suffix.data.isSuffixOf s.data

/-- JS `String.prototype.slice(0, -n)`: drop the last `n` characters. -/
def jsDropRight (s : String) (n : Nat) : String :=
  String.mk (s.data.take (s.data.length - n))

/-- JS `String.prototype.trim`: strip leading and trailing whitespace. -/
def jsTrim (s : String) : String :=
  String.mk (((s.data.dropWhile Char.isWhitespace).reverse.dropWhile Char.isWhitespace).reverse)

/-- The constant `COUNTY_SUFFIX = ' County'` of geocoding.ts line 93. -/
def COUNTY_SUFFIX : String := " County"

/-- The function `removeCountySuffix` (geocoding.ts lines 95-97):
`county.endsWith(COUNTY_SUFFIX) ? county.slice(0, -COUNTY_SUFFIX.length) : county`. -/
def removeCountySuffix (county : String) : String :=
  if jsEndsWith county COUNTY_SUFFIX then jsDropRight county COUNTY_SUFFIX.length else county

/-- The sanitisation `this.address.replace(/'/g, '')` of the Nominatim
forward path (line 229): every apostrophe (character code 39) is removed. -/
def sanitizeAddress (s : String) : String :=
  String.mk (s.data.filter (fun c => c ≠ Char.ofNat 39))

/-- The `Response.ok` flag of the WHATWG fetch API: status in the range 200..299. -/
def fetchOk (status : Nat) : Bool :=
  decide (200 ≤ status ∧ status ≤ 299)

/-- The `GeoLocation` exported type: a coordinate pair. -/
structure GeoLocation where
  lat : Rat
  long : Rat
deriving Repr, DecidableEq

/-- The nested `address` object of a Nominatim `reverse` response; every
field may be absent (`undefined`).  The default instance is the empty
object `{}` substituted by `reverseData.address || {}` (line 257). -/
structure NomAddress where
  country : Option String := none
  state : Option String := none
  county : Option String := none
  town : Option String := none
  city : Option String := none
  borough : Option String := none
  house_number : Option String := none
  road : Option String := none
  postcode : Option String := none
deriving Repr, DecidableEq, Inhabited

/-- One hit of a Nominatim `search` response: string-encoded coordinates
(possibly absent). -/
structure NomHit where
  lat : Option String := none
  lon : Option String := none
deriving Repr, DecidableEq

/-- A Nominatim `reverse` response payload: string-encoded coordinates and
an optional nested `address` object. -/
structure NomReverse where
  lat : Option String := none
  lon : Option String := none
  address : Option NomAddress := none
deriving Repr, DecidableEq

/-- One entry of Google's `address_components` list: a long name tagged
with a list of type strings. -/
structure GoogleAddressComponent where
  long_name : String
  types : List String
deriving Repr, DecidableEq

/-- One `google.maps.GeocoderResult`: resolved geometry (the values the
`location.lat()` / `location.lng()` accessors return) plus the typed
address components. -/
structure GoogleResult where
  geometry_lat : Rat
  geometry_lng : Rat
  address_components : List GoogleAddressComponent
deriving Repr, DecidableEq

/-- The `GeocodeResponse` delivered by `promisifyGeocode`: a results array
that may be `null`, and a status code (the string value of
`google.maps.GeocoderStatus`, e.g. "OK", "ZERO_RESULTS"). -/
structure GoogleResponse where
  results : Option (List GoogleResult)
  status : String
deriving Repr, DecidableEq

/-- The runtime value stored in `rawResponse`: the first Google result, the
first Nominatim forward-search hit, or the full Nominatim reverse payload. -/
inductive RawResponse where
  | google (r : GoogleResult)
  | nomHit (h : NomHit)
  | nomReverse (r : NomReverse)
deriving Repr, DecidableEq

/-- The exported `GeocodeResult` shape. -/
structure GeocodeResult where
  nation : String
  province : String
  county : String
  town : String
  borough : String
  street : String
  zip : String
  location : GeoLocation
  rawResponse : RawResponse
deriving Repr, DecidableEq

/-- The private state of a `Geocoder` instance: `address` and `location`,
each possibly `null`. -/
structure Geocoder where
  address : Option String
  location : Option GeoLocation
deriving Repr, DecidableEq

/-- The constructor argument `string | GeoLocation`, where the location
object may be missing either axis (callers can defeat the static type, as
the repository's own test does with a cast). -/
inductive GeocoderInput where
  | addr (s : String)
  | loc (lat : Option Rat) (long : Option Rat)
deriving Repr, DecidableEq

/-- The `Geocoder` constructor (lines 122-138).  A thrown `Error` is
`Except.error` with its message. -/
def Geocoder.construct : GeocoderInput → Except String Geocoder
  | .addr s => .ok { address := some s, location := none }
  | .loc lat long =>
    match lat, long with
    | some la, some lo => .ok { address := none, location := some ⟨la, lo⟩ }
    | _, _ => .error "Invalid location object: must contain lat and long properties"

/-- The outcome the environment supplies for one `fetch` call: either the
promise rejects (network failure, an `Error` with a message), or a response
arrives with an HTTP status and a `json()` body that itself either parses
to `α` or rejects with a parse error. -/
inductive FetchOutcome (α : Type) where
  | netError (msg : String)
  | response (status : Nat) (body : Except String α)

/-- The Nominatim environment: the response to the (at most one) `search`
call and to the (at most one) `reverse` call of a single adapter
invocation.  A `search` body of `none` models JSON `null`. -/
structure NomWorld where
  searchOutcome : FetchOutcome (Option (List NomHit))
  reverseOutcome : FetchOutcome NomReverse

/-- A network request the Nominatim adapter issued: a GET to the `search`
endpoint (recording the sanitised query it URL-encodes) or to the
`reverse` endpoint (recording the coordinates). -/
inductive NomCall where
  | search (q : String)
  | reverse (lat long : Rat)
deriving Repr, DecidableEq

/-- The built-in `parseFloat` applied to a string-or-undefined value: JS coerces
`undefined` to the string "undefined" first (yielding NaN). -/
def pfOpt (pf : String → Rat) (o : Option String) : Rat :=
  pf (o.getD "undefined")

/-- The normalisation of a Nominatim reverse payload into the canonical
shape (the record literal of lines 259-272): `rd.address || {}` supplies
the fields; `forwardHit` is `forwardData[0]` when a forward search
occurred (`forwardData ? forwardData[0] : reverseData`). -/
def nomNormalize (pf : String → Rat) (forwardHit : Option NomHit)
    (rd : NomReverse) : GeocodeResult :=
  let address := rd.address.getD {}
  { nation := jsOr address.country ""
    province := jsOr address.state ""
    county := removeCountySuffix (jsOr address.county "")
    town := jsOr address.town (jsOr address.city "")
    borough := jsOr address.borough ""
    street := jsTrim ((jsOr address.house_number "") ++ " " ++ (jsOr address.road ""))
    zip := jsOr address.postcode ""
    location := ⟨pfOpt pf rd.lat, pfOpt pf rd.lon⟩
    rawResponse := match forwardHit with
      | some h => .nomHit h
      | none => .nomReverse rd }

/-- The tail of `geocodeWithNominatim` from line 248 on: with the
coordinate pair established (and `forwardHit` the first forward-search hit
when one occurred), always fetch the `reverse` endpoint and normalise its
`address` object.  Returns the outcome (a thrown error stays `Except.error`
here; the method's own `catch` is applied by `geocodeWithNominatim`) and
the requests issued. -/
def nominatimReverseStep (pf : String → Rat) (forwardHit : Option NomHit)
    (lat long : Rat) (rout : FetchOutcome NomReverse) :
    Except String (GeocodeResult ⊕ String) × List NomCall :=
  match rout with
  | .netError msg => (.error msg, [.reverse lat long])
  | .response st body =>
    if fetchOk st then
      match body with
      | .error msg => (.error msg, [.reverse lat long])
      | .ok rd => (.ok (.inl (nomNormalize pf forwardHit rd)), [.reverse lat long])
    else
      (.error ("Reverse geocoding failed: " ++ toString st), [.reverse lat long])

/-- The body of the `try` block of `geocodeWithNominatim` (lines 208-272):
mode check, optional forward search, then the unconditional reverse step. -/
def nominatimBody (pf : String → Rat) (g : Geocoder) (isReverse : Bool)
    (w : NomWorld) : Except String (GeocodeResult ⊕ String) × List NomCall :=
  if isReverse then
    match g.location with
    | none => (.ok (.inr "No location coordinates provided for reverse geocoding"), [])
    | some loc => nominatimReverseStep pf none loc.lat loc.long w.reverseOutcome
  else
    match g.address with
    | none => (.ok (.inr "No address provided for forward geocoding"), [])
    | some a =>
      if a = "" then
        (.ok (.inr "No address provided for forward geocoding"), [])
      else
        let q := sanitizeAddress a
        match w.searchOutcome with
        | .netError msg => (.error msg, [.search q])
        | .response st body =>
          if fetchOk st then
            match body with
            | .error msg => (.error msg, [.search q])
            | .ok forwardData =>
              match forwardData with
              | none => (.ok (.inr "Nominatim Forward Geocoding failed: No results found"), [.search q])
              | some [] => (.ok (.inr "Nominatim Forward Geocoding failed: No results found"), [.search q])
              | some (hit :: _) =>
                let step := nominatimReverseStep pf (some hit)
                  (pfOpt pf hit.lat) (pfOpt pf hit.lon) w.reverseOutcome
                (step.1, .search q :: step.2)
          else
            (.error ("Forward geocoding failed: " ++ toString st), [.search q])

/-- The method `geocodeWithNominatim` (lines 207-278): the body wrapped in the
adapter's own `catch`, which converts any thrown error into the
"Nominatim ... Geocoding error: ..." string. -/
def Geocoder.geocodeWithNominatim (pf : String → Rat) (g : Geocoder)
    (isReverse : Bool) (w : NomWorld) :
    Except String (GeocodeResult ⊕ String) × List NomCall :=
  match nominatimBody pf g isReverse w with
  | (.ok r, calls) => (.ok r, calls)
  | (.error msg, calls) =>
    (.ok (.inr ("Nominatim " ++ (if isReverse then "Reverse" else "Forward")
      ++ " Geocoding error: " ++ msg)), calls)

/-- The `Record<string, string>` built by the `reduce` over
`address_components` (lines 174-177): successive assignments
`acc[type] = comp.long_name`, later writes overwriting earlier ones. -/
def googleComponents (l : List GoogleAddressComponent) : List (String × String) :=
  l.foldl (fun acc c => acc ++ c.types.map (fun t => (t, c.long_name))) []

/-- Lookup in the assignment list: the value of the LAST write to the key
(JS record overwrite semantics), `none` when the key was never written. -/
def recLookup (m : List (String × String)) (k : String) : Option String :=
  m.foldl (fun acc p => if p.1 = k then some p.2 else acc) none

/-- The V8 message of the `TypeError` thrown by
`results[0].geometry` when `results` is the empty array (line 173):
accessing a property of `undefined`. -/
def undefinedGeometryMsg : String :=
  "Cannot read properties of undefined (reading \x27geometry\x27)"

/-- The normalisation of the first Google result into the canonical shape
(the record literal of lines 179-192). -/
def googleNormalize (r0 : GoogleResult) : GeocodeResult :=
  let comps := googleComponents r0.address_components
  { nation := jsOr (recLookup comps "country") ""
    province := jsOr (recLookup comps "administrative_area_level_1") ""
    county := removeCountySuffix (jsOr (recLookup comps "administrative_area_level_2") "")
    town := jsOr (recLookup comps "locality") ""
    borough := jsOr (recLookup comps "sublocality_level_1") ""
    street := (jsOr (recLookup comps "street_number") "") ++ " "
      ++ (jsOr (recLookup comps "route") "")
    zip := jsOr (recLookup comps "postal_code") ""
    location := ⟨r0.geometry_lat, r0.geometry_lng⟩
    rawResponse := .google r0 }

/-- Lines 169-197 of `geocodeWithGoogle`: the handling of the
`promisifyGeocode` response.  `status === OK && results` is true exactly
when the status is "OK" and `results` is non-null (a JS array, even empty,
is truthy); with an empty array, `results[0].geometry` throws. -/
def googleRespond (isReverse : Bool) (resp : GoogleResponse) :
    Except String (GeocodeResult ⊕ String) :=
  match resp.results with
  | none => .ok (.inr ("Google " ++ (if isReverse then "Reverse" else "Forward")
      ++ " Geocoding failed: " ++ resp.status))
  | some rs =>
    if resp.status = "OK" then
      match rs with
      | [] => .error undefinedGeometryMsg
      | r0 :: _ => .ok (.inl (googleNormalize r0))
    else
      .ok (.inr ("Google " ++ (if isReverse then "Reverse" else "Forward")
        ++ " Geocoding failed: " ++ resp.status))

/-- The method `geocodeWithGoogle` (lines 147-198): mode check, then the request and
response handling.  The returned `Bool` records whether a geocoding
request was issued (the early mode-mismatch returns happen before
`promisifyGeocode` runs). -/
def Geocoder.geocodeWithGoogle (g : Geocoder) (isReverse : Bool)
    (resp : GoogleResponse) : Except String (GeocodeResult ⊕ String) × Bool :=
  if isReverse then
    match g.location with
    | none => (.ok (.inr "No location coordinates provided for reverse geocoding"), false)
    | some _ => (googleRespond isReverse resp, true)
  else
    match g.address with
    | none => (.ok (.inr "No address provided for forward geocoding"), false)
    | some a =>
      if a = "" then
        (.ok (.inr "No address provided for forward geocoding"), false)
      else
        (googleRespond isReverse resp, true)

/-- The two-valued provider selector. -/
inductive Provider where
  | google
  | nominatim
deriving Repr, DecidableEq

/-- The string value of the provider selector, as interpolated into the
public error messages. -/
def Provider.str : Provider → String
  | .google => "google"
  | .nominatim => "nominatim"

/-- The full environment a public operation runs against. -/
structure World where
  googleResp : GoogleResponse
  nom : NomWorld

/-- The requests a public operation issued: whether a Google geocoding
round-trip ran, and which Nominatim GETs ran. -/
structure CallLog where
  googleRequest : Bool
  nomCalls : List NomCall
deriving Repr, DecidableEq

/-- The empty call log: no provider request was made. -/
def CallLog.empty : CallLog := ⟨false, []⟩

/-- The `try`/`catch` of the public operations (lines 287-296, 306-315):
a thrown error becomes the "(Forward|Reverse) Geocoding error with
(provider): ..." string. -/
def publicCatch (dir : String) (p : Provider) :
    Except String (GeocodeResult ⊕ String) → Except String (GeocodeResult ⊕ String)
  | .ok r => .ok r
  | .error e => .ok (.inr (dir ++ " Geocoding error with " ++ p.str ++ ": " ++ e))

/-- The public `geocode` operation (lines 286-297). -/
def Geocoder.geocode (pf : String → Rat) (g : Geocoder) (p : Provider)
    (w : World) : Except String (GeocodeResult ⊕ String) × CallLog :=
  match p with
  | .google =>
    let inner := g.geocodeWithGoogle false w.googleResp
    (publicCatch "Forward" p inner.1, ⟨inner.2, []⟩)
  | .nominatim =>
    let inner := g.geocodeWithNominatim pf false w.nom
    (publicCatch "Forward" p inner.1, ⟨false, inner.2⟩)

/-- The public `reverseGeocode` operation (lines 305-316). -/
def Geocoder.reverseGeocode (pf : String → Rat) (g : Geocoder) (p : Provider)
    (w : World) : Except String (GeocodeResult ⊕ String) × CallLog :=
  match p with
  | .google =>
    let inner := g.geocodeWithGoogle true w.googleResp
    (publicCatch "Reverse" p inner.1, ⟨inner.2, []⟩)
  | .nominatim =>
    let inner := g.geocodeWithNominatim pf true w.nom
    (publicCatch "Reverse" p inner.1, ⟨false, inner.2⟩)

/-! ## Helper lemmas -/

/-- The public `catch` always yields an `ok` value: every thrown error is
converted into the error-string variant of the union. -/
theorem publicCatch_isOk (dir : String) (p : Provider)
    (x : Except String (GeocodeResult ⊕ String)) :
    ∃ r, publicCatch dir p x = .ok r := by
  cases x <;> exact ⟨_, rfl⟩

/-- A successful `nominatimReverseStep` forces a 2xx reverse response whose
parsed payload is normalised by `nomNormalize`, and records exactly the
reverse GET. -/
theorem nominatimReverseStep_ok (pf : String → Rat) (fh : Option NomHit)
    (la lo : Rat) (rout : FetchOutcome NomReverse) (r : GeocodeResult)
    (calls : List NomCall)
    (h : nominatimReverseStep pf fh la lo rout = (.ok (.inl r), calls)) :
    ∃ st rd, rout = .response st (.ok rd) ∧ fetchOk st = true ∧
      r = nomNormalize pf fh rd ∧ calls = [.reverse la lo] := by
  cases rout with
  | netError msg => simp [nominatimReverseStep] at h
  | response st body =>
    by_cases hok : fetchOk st = true
    · cases body with
      | error msg => simp [nominatimReverseStep, hok] at h
      | ok rd =>
        simp only [nominatimReverseStep, hok, if_true] at h
        obtain ⟨h1, h2⟩ := Prod.mk.injEq .. ▸ h
        exact ⟨st, rd, rfl, hok, (Sum.inl.injEq .. ▸ Except.ok.injEq .. ▸ h1).symm, h2.symm⟩
    · simp [nominatimReverseStep, hok] at h

/-! ## Claims -/

/-- C1: for every Geocoder instance and either provider selector, the
public operations `geocode` and `reverseGeocode` never produce an uncaught
exception (a `.error` outcome): any error raised during provider I/O is
caught, so the caller always receives either a `GeocodeResult` or a
string. -/
theorem C1_public_ops_never_throw (pf : String → Rat) (g : Geocoder)
    (p : Provider) (w : World) :
    (∃ r, (g.geocode pf p w).1 = .ok r) ∧
    (∃ r, (g.reverseGeocode pf p w).1 = .ok r) := by
  constructor <;> cases p <;> exact publicCatch_isOk _ _ _

/-- C3: constructing a Geocoder from a coordinate object with both lat and
long present (in particular every valid pair) never fails, and
constructing from an object missing either property always fails with the
exact message "Invalid location object: must contain lat and long
properties". -/
theorem C3_constructor_validation :
    (∀ la lo : Rat, Geocoder.construct (.loc (some la) (some lo)) =
      .ok { address := none, location := some ⟨la, lo⟩ }) ∧
    (∀ la lo : Option Rat, la = none ∨ lo = none →
      Geocoder.construct (.loc la lo) =
        .error "Invalid location object: must contain lat and long properties") := by
  refine ⟨fun la lo => rfl, fun la lo h => ?_⟩
  rcases la with _ | la <;> rcases lo with _ | lo
  · rfl
  · rfl
  · rfl
  · rcases h with h | h <;> exact absurd h (by simp)

/-- Witness for C3 at a concrete valid pair and a concrete object missing
its `long` property. -/
theorem C3_constructor_validation_witness :
    Geocoder.construct (.loc (some 1) (some 2)) =
      .ok { address := none, location := some ⟨1, 2⟩ } ∧
    Geocoder.construct (.loc (some 1) none) =
      .error "Invalid location object: must contain lat and long properties" :=
  ⟨C3_constructor_validation.1 1 2,
   C3_constructor_validation.2 (some 1) none (Or.inr rfl)⟩

/-- C6 counterexample: county-suffix stripping is NOT idempotent — on
"Foo County County" a second application strips a second " County" token,
so applying `removeCountySuffix` twice differs from applying it once. -/
theorem C6_counterexample :
    removeCountySuffix (removeCountySuffix "Foo County County")
      ≠ removeCountySuffix "Foo County County" := by decide

/-- C6 amended: county-suffix stripping removes exactly one trailing
" County" token per application (so it is exact on the cited examples:
"Loudoun County" ↦ "Loudoun" and "Loudoun" ↦ "Loudoun", but not
idempotent), and the same single stripping function `removeCountySuffix`
yields the county field of both the Google and the Nominatim normaliser. -/
theorem C6_amended (isReverse : Bool) (r0 : GoogleResult)
    (rest : List GoogleResult) (pf : String → Rat) (fh : Option NomHit)
    (la lo : Rat) (st : Nat) (rd : NomReverse) (hok : fetchOk st = true) :
    removeCountySuffix "Loudoun County" = "Loudoun" ∧
    removeCountySuffix "Loudoun" = "Loudoun" ∧
    (∃ r, googleRespond isReverse ⟨some (r0 :: rest), "OK"⟩ = .ok (.inl r) ∧
      r.county = removeCountySuffix
        (jsOr (recLookup (googleComponents r0.address_components)
          "administrative_area_level_2") "")) ∧
    (∃ r calls,
      nominatimReverseStep pf fh la lo (.response st (.ok rd)) = (.ok (.inl r), calls) ∧
      r.county = removeCountySuffix (jsOr (rd.address.getD {}).county "")) := by
  refine ⟨by decide, by decide, ⟨googleNormalize r0, rfl, rfl⟩,
    ⟨nomNormalize pf fh rd, [.reverse la lo], ?_, rfl⟩⟩
  simp [nominatimReverseStep, hok]

/-- Witness for C6 amended at concrete inputs (status 200 discharges the
2xx hypothesis). -/
theorem C6_amended_witness :
    fetchOk 200 = true ∧
    (removeCountySuffix "Loudoun County" = "Loudoun" ∧
     removeCountySuffix "Loudoun" = "Loudoun" ∧
     (∃ r, googleRespond false ⟨some [⟨0, 0, []⟩], "OK"⟩ = .ok (.inl r) ∧
       r.county = removeCountySuffix
         (jsOr (recLookup (googleComponents ([] : List GoogleAddressComponent))
           "administrative_area_level_2") "")) ∧
     (∃ r calls,
       nominatimReverseStep (fun _ => 0) none 0 0 (.response 200 (.ok ⟨none, none, none⟩))
         = (.ok (.inl r), calls) ∧
       r.county = removeCountySuffix
         (jsOr ((⟨none, none, none⟩ : NomReverse).address.getD {}).county ""))) :=
  ⟨by decide, C6_amended false ⟨0, 0, []⟩ [] (fun _ => 0) none 0 0 200 ⟨none, none, none⟩ (by decide)⟩

/-- C10: constructing a Geocoder from the empty address string succeeds,
yet every geocode call on it, with either provider, issues no provider
request and returns the string "No address provided for forward
geocoding" (the empty string is falsy in the address check). -/
theorem C10_empty_address_geocode (pf : String → Rat) (w : World) :
    ∃ g, Geocoder.construct (.addr "") = .ok g ∧
      g.geocode pf .google w =
        (.ok (.inr "No address provided for forward geocoding"), CallLog.empty) ∧
      g.geocode pf .nominatim w =
        (.ok (.inr "No address provided for forward geocoding"), CallLog.empty) :=
  ⟨⟨some "", none⟩, rfl, rfl, rfl⟩

/-- C4: an address-built Geocoder answering `reverseGeocode`, with either
provider, returns exactly the string "No location coordinates provided for
reverse geocoding" (which therefore contains it), and a location-built
Geocoder answering `geocode` returns the mode-mismatch string "No address
provided for forward geocoding"; in both cases nothing is thrown and no
provider request is made (empty call log). -/
theorem C4_mode_mismatch (pf : String → Rat) (s : String) (la lo : Rat)
    (p : Provider) (w : World) (g g' : Geocoder)
    (hg : Geocoder.construct (.addr s) = .ok g)
    (hg' : Geocoder.construct (.loc (some la) (some lo)) = .ok g') :
    g.reverseGeocode pf p w =
      (.ok (.inr "No location coordinates provided for reverse geocoding"), CallLog.empty) ∧
    g'.geocode pf p w =
      (.ok (.inr "No address provided for forward geocoding"), CallLog.empty) := by
  injection hg with hg
  injection hg' with hg'
  subst hg
  subst hg'
  cases p <;> exact ⟨rfl, rfl⟩

/-- Witness for C4 at a concrete address-built and location-built pair of
instances, with the Google provider and an arbitrary concrete world. -/
theorem C4_mode_mismatch_witness :
    (Geocoder.reverseGeocode (fun _ => 0) ⟨some "a", none⟩ .google
        ⟨⟨none, "OK"⟩, ⟨.netError "n", .netError "n"⟩⟩ =
      (.ok (.inr "No location coordinates provided for reverse geocoding"), CallLog.empty)) ∧
    (Geocoder.geocode (fun _ => 0) ⟨none, some ⟨1, 2⟩⟩ .google
        ⟨⟨none, "OK"⟩, ⟨.netError "n", .netError "n"⟩⟩ =
      (.ok (.inr "No address provided for forward geocoding"), CallLog.empty)) :=
  C4_mode_mismatch (fun _ => 0) "a" 1 2 .google
    ⟨⟨none, "OK"⟩, ⟨.netError "n", .netError "n"⟩⟩ ⟨some "a", none⟩ ⟨none, some ⟨1, 2⟩⟩ rfl rfl

/-- C9: a forward geocode via Nominatim whose search endpoint responds 2xx
with an empty (`[]`) or missing (JSON `null`) result array returns exactly
the string "Nominatim Forward Geocoding failed: No results found". -/
theorem C9_nominatim_no_results (pf : String → Rat) (g : Geocoder)
    (a : String) (w : World) (st : Nat) (body : Option (List NomHit))
    (ha : g.address = some a) (hne : a ≠ "")
    (hs : w.nom.searchOutcome = .response st (.ok body))
    (hok : fetchOk st = true)
    (hempty : body = none ∨ body = some []) :
    (g.geocode pf .nominatim w).1 =
      .ok (.inr "Nominatim Forward Geocoding failed: No results found") := by
  have hbody : (nominatimBody pf g false w.nom) =
      (.ok (.inr "Nominatim Forward Geocoding failed: No results found"),
        [.search (sanitizeAddress a)]) := by
    unfold nominatimBody
    rw [ha, hs]
    simp only [Bool.false_eq_true, if_false, hne, if_neg, hok, if_true]
    rcases hempty with h | h <;> subst h <;> rfl
  simp only [Geocoder.geocode, Geocoder.geocodeWithNominatim, hbody, publicCatch]

/-- Witness for C9 with a concrete address-built instance and a concrete
world whose search responds 200 with an empty array. -/
theorem C9_nominatim_no_results_witness :
    (Geocoder.geocode (fun _ => 0) ⟨some "a", none⟩ .nominatim
        ⟨⟨none, "OK"⟩, ⟨.response 200 (.ok (some [])), .netError "n"⟩⟩).1 =
      .ok (.inr "Nominatim Forward Geocoding failed: No results found") :=
  C9_nominatim_no_results (fun _ => 0) ⟨some "a", none⟩ "a"
    ⟨⟨none, "OK"⟩, ⟨.response 200 (.ok (some [])), .netError "n"⟩⟩ 200 (some [])
    rfl (by decide) rfl (by decide) (Or.inr rfl)

set_option maxRecDepth 8000 in
/-- C2 counterexample: a Google forward call whose client responds with
status "OK" and an EMPTY result list does not return a string embedding
the provider status code — the first-result access throws inside the
adapter, and the public operation returns the caught-error string, which
contains the direction but no occurrence of the status code "OK". -/
theorem C2_counterexample :
    (Geocoder.geocode (fun _ => 0) ⟨some "a", none⟩ .google
        ⟨⟨some [], "OK"⟩, ⟨.netError "n", .netError "n"⟩⟩).1 =
      .ok (.inr ("Forward Geocoding error with google: " ++ undefinedGeometryMsg)) ∧
    ¬ ("OK".data <:+:
        ("Forward Geocoding error with google: " ++ undefinedGeometryMsg).data) :=
  ⟨rfl, by decide⟩

set_option maxRecDepth 8000 in
/-- C2 amended: when the Google client responds with a non-OK status or
with a null results list, the adapter returns (without throwing) the
descriptive string embedding the operation direction and the provider
status code; when it responds with status OK but an EMPTY (non-null)
result list, the adapter instead throws the undefined-property TypeError,
which the public operation catches and converts to a direction-labelled
error string that does not embed the provider status code. -/
theorem C2_amended_google_failure (isReverse : Bool) (st : String)
    (orl : Option (List GoogleResult)) (h : st ≠ "OK" ∨ orl = none) :
    googleRespond isReverse ⟨orl, st⟩ =
      .ok (.inr ("Google " ++ (if isReverse then "Reverse" else "Forward")
        ++ " Geocoding failed: " ++ st)) ∧
    googleRespond isReverse ⟨some [], "OK"⟩ = .error undefinedGeometryMsg ∧
    (∀ (pf : String → Rat) (g : Geocoder) (w : World) (msg : String),
      (g.geocodeWithGoogle false w.googleResp).1 = .error msg →
      (g.geocode pf .google w).1 =
        .ok (.inr ("Forward Geocoding error with google: " ++ msg))) ∧
    (∀ (pf : String → Rat) (g : Geocoder) (w : World) (msg : String),
      (g.geocodeWithGoogle true w.googleResp).1 = .error msg →
      (g.reverseGeocode pf .google w).1 =
        .ok (.inr ("Reverse Geocoding error with google: " ++ msg))) ∧
    ¬ ("OK".data <:+:
        ("Forward Geocoding error with google: " ++ undefinedGeometryMsg).data) ∧
    ¬ ("OK".data <:+:
        ("Reverse Geocoding error with google: " ++ undefinedGeometryMsg).data) := by
  refine ⟨?_, ?_, ?_, ?_, by decide, by decide⟩
  · rcases orl with _ | rs
    · rfl
    · rcases h with h | h
      · simp [googleRespond, h]
      · exact absurd h (by simp)
  · rcases orl with _ | rs <;> rfl
  · intro pf g w msg hmsg
    simp only [Geocoder.geocode, hmsg, publicCatch]
    rw [show ("Forward" ++ " Geocoding error with " ++ Provider.google.str ++ ": " : String)
      = "Forward Geocoding error with google: " from by decide]
  · intro pf g w msg hmsg
    simp only [Geocoder.reverseGeocode, hmsg, publicCatch]
    rw [show ("Reverse" ++ " Geocoding error with " ++ Provider.google.str ++ ": " : String)
      = "Reverse Geocoding error with google: " from by decide]

/-- Witness for C2 amended: a concrete non-OK response, the concrete
OK-with-empty-list throw, and the public conversion of that throw. -/
theorem C2_amended_google_failure_witness :
    googleRespond false ⟨none, "ZERO_RESULTS"⟩ =
      .ok (.inr "Google Forward Geocoding failed: ZERO_RESULTS") ∧
    googleRespond false ⟨some [], "OK"⟩ = .error undefinedGeometryMsg ∧
    (Geocoder.geocode (fun _ => 0) ⟨some "a", none⟩ .google
        ⟨⟨some [], "OK"⟩, ⟨.netError "n", .netError "n"⟩⟩).1 =
      .ok (.inr ("Forward Geocoding error with google: " ++ undefinedGeometryMsg)) := by
  have h := C2_amended_google_failure false "ZERO_RESULTS" none (Or.inr rfl)
  exact ⟨h.1, h.2.1,
    h.2.2.1 (fun _ => 0) ⟨some "a", none⟩
      ⟨⟨some [], "OK"⟩, ⟨.netError "n", .netError "n"⟩⟩ undefinedGeometryMsg rfl⟩

/-- C7 counterexample: a successful Google result whose payload carries a
route but no street number has street " Main Street" — the leading space
is kept, so the street is NOT the trimmed space-join the claim states. -/
theorem C7_counterexample :
    googleRespond false ⟨some [⟨0, 0, [⟨"Main Street", ["route"]⟩]⟩], "OK"⟩ =
      .ok (.inl (googleNormalize ⟨0, 0, [⟨"Main Street", ["route"]⟩]⟩)) ∧
    (googleNormalize ⟨0, 0, [⟨"Main Street", ["route"]⟩]⟩).street = " Main Street" ∧
    jsTrim " Main Street" ≠ " Main Street" :=
  ⟨rfl, by decide, by decide⟩

/-- C7 amended: in every successful Nominatim result the street is the
house number and road joined by a single space with surrounding whitespace
trimmed, but in every successful Google result the street is the plain
space-join of street number and route, NOT trimmed. -/
theorem C7_street_join (isReverse : Bool) (r0 : GoogleResult)
    (rest : List GoogleResult) (pf : String → Rat) (fh : Option NomHit)
    (la lo : Rat) (st : Nat) (rd : NomReverse) (hok : fetchOk st = true) :
    (∃ r, googleRespond isReverse ⟨some (r0 :: rest), "OK"⟩ = .ok (.inl r) ∧
      r.street = (jsOr (recLookup (googleComponents r0.address_components) "street_number") "")
        ++ " " ++ (jsOr (recLookup (googleComponents r0.address_components) "route") "")) ∧
    (∃ r calls,
      nominatimReverseStep pf fh la lo (.response st (.ok rd)) = (.ok (.inl r), calls) ∧
      r.street = jsTrim ((jsOr (rd.address.getD {}).house_number "") ++ " "
        ++ (jsOr (rd.address.getD {}).road ""))) := by
  refine ⟨⟨googleNormalize r0, rfl, rfl⟩,
    ⟨nomNormalize pf fh rd, [.reverse la lo], ?_, rfl⟩⟩
  simp [nominatimReverseStep, hok]

/-- Witness for the amended C7 at concrete payloads (status 200). -/
theorem C7_street_join_witness :
    fetchOk 200 = true ∧
    ((∃ r, googleRespond false ⟨some [⟨0, 0, [⟨"Main Street", ["route"]⟩]⟩], "OK"⟩
        = .ok (.inl r) ∧
      r.street = (jsOr (recLookup (googleComponents [⟨"Main Street", ["route"]⟩]) "street_number") "")
        ++ " " ++ (jsOr (recLookup (googleComponents [⟨"Main Street", ["route"]⟩]) "route") "")) ∧
    (∃ r calls,
      nominatimReverseStep (fun _ => 0) none 0 0
          (.response 200 (.ok ⟨none, none, some { house_number := some "12", road := some "High St" }⟩))
        = (.ok (.inl r), calls) ∧
      r.street = jsTrim ((jsOr ((⟨none, none, some { house_number := some "12", road := some "High St" }⟩ : NomReverse).address.getD {}).house_number "") ++ " "
        ++ (jsOr ((⟨none, none, some { house_number := some "12", road := some "High St" }⟩ : NomReverse).address.getD {}).road "")))) :=
  ⟨by decide, C7_street_join false ⟨0, 0, [⟨"Main Street", ["route"]⟩]⟩ [] (fun _ => 0) none 0 0 200
    ⟨none, none, some { house_number := some "12", road := some "High St" }⟩ (by decide)⟩

/-- C8 counterexample: a successful Google result whose payload has no
address components renders the street as a single space " ", not the empty
string, so not every absent canonical field defaults to "". -/
theorem C8_counterexample :
    googleRespond false ⟨some [⟨0, 0, []⟩], "OK"⟩ =
      .ok (.inl (googleNormalize ⟨0, 0, []⟩)) ∧
    (googleNormalize ⟨0, 0, []⟩).street = " " ∧
    (" " : String) ≠ "" :=
  ⟨rfl, by decide, by decide⟩

/-- C8 amended: on success every canonical field absent from the raw
payload is the empty string — never null/undefined — EXCEPT the Google
street, which is the un-trimmed space-join and so renders as a single
space " " when both street number and route are absent (the Nominatim
street does default to ""). -/
theorem C8_missing_field_defaults (r0 : GoogleResult) (pf : String → Rat)
    (fh : Option NomHit) (rd : NomReverse) :
    (let comps := googleComponents r0.address_components
     let gr := googleNormalize r0
     (recLookup comps "country" = none → gr.nation = "") ∧
     (recLookup comps "administrative_area_level_1" = none → gr.province = "") ∧
     (recLookup comps "administrative_area_level_2" = none → gr.county = "") ∧
     (recLookup comps "locality" = none → gr.town = "") ∧
     (recLookup comps "sublocality_level_1" = none → gr.borough = "") ∧
     (recLookup comps "postal_code" = none → gr.zip = "") ∧
     (recLookup comps "street_number" = none → recLookup comps "route" = none →
       gr.street = " ")) ∧
    (let a := rd.address.getD {}
     let nr := nomNormalize pf fh rd
     (a.country = none → nr.nation = "") ∧
     (a.state = none → nr.province = "") ∧
     (a.county = none → nr.county = "") ∧
     (a.town = none → a.city = none → nr.town = "") ∧
     (a.borough = none → nr.borough = "") ∧
     (a.postcode = none → nr.zip = "") ∧
     (a.house_number = none → a.road = none → nr.street = "")) := by
  constructor
  · refine ⟨fun h => ?_, fun h => ?_, fun h => ?_, fun h => ?_, fun h => ?_,
      fun h => ?_, fun h1 h2 => ?_⟩
    · simp [googleNormalize, h, jsOr]
    · simp [googleNormalize, h, jsOr]
    · simp only [googleNormalize, h, jsOr]
      decide
    · simp [googleNormalize, h, jsOr]
    · simp [googleNormalize, h, jsOr]
    · simp [googleNormalize, h, jsOr]
    · simp only [googleNormalize, h1, h2, jsOr]
      decide
  · refine ⟨fun h => ?_, fun h => ?_, fun h => ?_, fun h1 h2 => ?_, fun h => ?_,
      fun h => ?_, fun h1 h2 => ?_⟩
    · simp [nomNormalize, h, jsOr]
    · simp [nomNormalize, h, jsOr]
    · simp only [nomNormalize, h, jsOr]
      decide
    · simp [nomNormalize, h1, h2, jsOr]
    · simp [nomNormalize, h, jsOr]
    · simp [nomNormalize, h, jsOr]
    · simp only [nomNormalize, h1, h2, jsOr]
      decide

/-- Witness for the amended C8 at a Google payload with no components and
a Nominatim reverse payload with no address object. -/
theorem C8_missing_field_defaults_witness :
    (googleNormalize ⟨0, 0, []⟩).nation = "" ∧
    (googleNormalize ⟨0, 0, []⟩).street = " " ∧
    (nomNormalize (fun _ => 0) none ⟨none, none, none⟩).nation = "" ∧
    (nomNormalize (fun _ => 0) none ⟨none, none, none⟩).street = "" := by
  have h := C8_missing_field_defaults ⟨0, 0, []⟩ (fun _ => 0) none ⟨none, none, none⟩
  exact ⟨h.1.1 rfl, h.1.2.2.2.2.2.2 rfl rfl, h.2.1 rfl, h.2.2.2.2.2.2.2 rfl rfl⟩

/-- C5: whenever a Nominatim-provider call (forward or reverse) succeeds,
the adapter issued a GET to the `reverse` endpoint, the canonical address
fields of the result are drawn solely from that reverse lookup's `address`
object, and `rawResponse` is the forward-search hit when a forward search
occurred, else the full reverse-lookup payload. -/
theorem C5_nominatim_reverse_sourcing (pf : String → Rat) (g : Geocoder)
    (isReverse : Bool) (w : NomWorld) (r : GeocodeResult) (calls : List NomCall)
    (h : g.geocodeWithNominatim pf isReverse w = (.ok (.inl r), calls)) :
    ∃ st rd, w.reverseOutcome = .response st (.ok rd) ∧ fetchOk st = true ∧
      (∃ la lo, NomCall.reverse la lo ∈ calls) ∧
      r.nation = jsOr (rd.address.getD {}).country "" ∧
      r.province = jsOr (rd.address.getD {}).state "" ∧
      r.county = removeCountySuffix (jsOr (rd.address.getD {}).county "") ∧
      r.town = jsOr (rd.address.getD {}).town (jsOr (rd.address.getD {}).city "") ∧
      r.borough = jsOr (rd.address.getD {}).borough "" ∧
      r.street = jsTrim ((jsOr (rd.address.getD {}).house_number "") ++ " "
        ++ (jsOr (rd.address.getD {}).road "")) ∧
      r.zip = jsOr (rd.address.getD {}).postcode "" ∧
      (isReverse = true → r.rawResponse = .nomReverse rd) ∧
      (isReverse = false → ∃ hit rest st2,
        w.searchOutcome = .response st2 (.ok (some (hit :: rest))) ∧
        r.rawResponse = .nomHit hit) := by
  have hb : nominatimBody pf g isReverse w = (.ok (.inl r), calls) := by
    unfold Geocoder.geocodeWithNominatim at h
    rcases hres : nominatimBody pf g isReverse w with ⟨res, cs⟩
    rw [hres] at h
    cases res with
    | ok v => exact h
    | error m => simp at h
  clear h
  unfold nominatimBody at hb
  cases isReverse with
  | true =>
    rw [if_pos rfl] at hb
    rcases hloc : g.location with _ | loc <;> rw [hloc] at hb
    · simp at hb
    · obtain ⟨st, rd, hro, hok, hr, hcalls⟩ :=
        nominatimReverseStep_ok pf none loc.lat loc.long w.reverseOutcome r calls hb
      subst hr
      refine ⟨st, rd, hro, hok, ⟨loc.lat, loc.long, ?_⟩, rfl, rfl, rfl, rfl, rfl, rfl, rfl,
        fun _ => rfl, fun hff => absurd hff (by decide)⟩
      rw [hcalls]
      exact List.mem_singleton.mpr rfl
  | false =>
    rw [if_neg (by decide)] at hb
    rcases haddr : g.address with _ | a <;> rw [haddr] at hb
    · simp at hb
    · simp only [] at hb
      by_cases ha : a = ""
      · rw [if_pos ha] at hb
        simp at hb
      · rw [if_neg ha] at hb
        rcases hso : w.searchOutcome with msg | ⟨st2, body⟩ <;> rw [hso] at hb
        · simp at hb
        · simp only [] at hb
          by_cases hok2 : fetchOk st2 = true
          · rw [if_pos hok2] at hb
            cases body with
            | error m => simp at hb
            | ok fd =>
              rcases fd with _ | ⟨_ | ⟨hit, rest⟩⟩
              · simp at hb
              · simp at hb
              · simp only [] at hb
                rcases hstep : nominatimReverseStep pf (some hit)
                    (pfOpt pf hit.lat) (pfOpt pf hit.lon) w.reverseOutcome with ⟨sres, scalls⟩
                rw [hstep] at hb
                obtain ⟨h1, h2⟩ := Prod.mk.injEq .. ▸ hb
                obtain ⟨st, rd, hro, hok, hr, hcalls⟩ :=
                  nominatimReverseStep_ok pf (some hit) (pfOpt pf hit.lat) (pfOpt pf hit.lon)
                    w.reverseOutcome r scalls (by rw [hstep]; exact Prod.ext_iff.mpr ⟨h1, rfl⟩)
                subst hr
                refine ⟨st, rd, hro, hok, ⟨pfOpt pf hit.lat, pfOpt pf hit.lon, ?_⟩,
                  rfl, rfl, rfl, rfl, rfl, rfl, rfl,
                  fun htf => absurd htf (by decide), fun _ => ⟨hit, rest, st2, rfl, rfl⟩⟩
                rw [← h2, hcalls]
                simp
          · rw [if_neg hok2] at hb
            simp at hb

/-- Witness for C5: a concrete reverse-mode success against a world whose
reverse endpoint answers 200 with an empty payload. -/
theorem C5_nominatim_reverse_sourcing_witness :
    ∃ st rd,
      (NomWorld.mk (.netError "n") (.response 200 (.ok ⟨none, none, none⟩))).reverseOutcome
        = .response st (.ok rd) ∧ fetchOk st = true ∧
      (∃ la lo, NomCall.reverse la lo ∈ [NomCall.reverse 1 2]) ∧
      (nomNormalize (fun _ => 0) none ⟨none, none, none⟩).nation
        = jsOr (rd.address.getD {}).country "" ∧
      (nomNormalize (fun _ => 0) none ⟨none, none, none⟩).province
        = jsOr (rd.address.getD {}).state "" ∧
      (nomNormalize (fun _ => 0) none ⟨none, none, none⟩).county
        = removeCountySuffix (jsOr (rd.address.getD {}).county "") ∧
      (nomNormalize (fun _ => 0) none ⟨none, none, none⟩).town
        = jsOr (rd.address.getD {}).town (jsOr (rd.address.getD {}).city "") ∧
      (nomNormalize (fun _ => 0) none ⟨none, none, none⟩).borough
        = jsOr (rd.address.getD {}).borough "" ∧
      (nomNormalize (fun _ => 0) none ⟨none, none, none⟩).street
        = jsTrim ((jsOr (rd.address.getD {}).house_number "") ++ " "
          ++ (jsOr (rd.address.getD {}).road "")) ∧
      (nomNormalize (fun _ => 0) none ⟨none, none, none⟩).zip
        = jsOr (rd.address.getD {}).postcode "" ∧
      (true = true →
        (nomNormalize (fun _ => 0) none ⟨none, none, none⟩).rawResponse = .nomReverse rd) ∧
      (true = false → ∃ hit rest st2,
        (NomWorld.mk (.netError "n") (.response 200 (.ok ⟨none, none, none⟩))).searchOutcome
          = .response st2 (.ok (some (hit :: rest))) ∧
        (nomNormalize (fun _ => 0) none ⟨none, none, none⟩).rawResponse = .nomHit hit) :=
  C5_nominatim_reverse_sourcing (fun _ => 0) ⟨none, some ⟨1, 2⟩⟩ true
    ⟨.netError "n", .response 200 (.ok ⟨none, none, none⟩)⟩
    (nomNormalize (fun _ => 0) none ⟨none, none, none⟩) [.reverse 1 2] rfl
